import Mathlib

/-!
Verification of the ykush3 driver (package ykush3, file ykush3.go).

Shallow embedding: Go `Port` (an `int`) becomes `Int`; Go `PortState`
(a `bool`) becomes `Bool`; a HID report (a `[]byte` of length 64) becomes
a `List Nat` whose entries are the byte values.  The external HID transport
is abstracted as a stub recording the outcome of the single `Write` call
and the single `Read` call an exchange makes; each driver operation also
returns the trace of transport events it performed, so that claims about
"no I/O before the error" and about the written report are statable.
-/

/-- USB vendor ID for YKUSH3 devices (`VendorID`). -/
def VendorID : Nat := 0x04D8

/-- USB product ID for YKUSH3 devices (`ProductID`). -/
def ProductID : Nat := 0xF11B

/-- HID report size used for communication (`ReportSize`). -/
def ReportSize : Nat := 64

/-- Go `Port` is an `int`. -/
abbrev Port := Int

/-- Go constant `Port1 Port = 1`. -/
def Port1 : Port := 1

/-- Go constant `Port2 Port = 2`. -/
def Port2 : Port := 2

/-- Go constant `Port3 Port = 3`. -/
def Port3 : Port := 3

/-- Go constant `AllPorts Port = 10`. -/
def AllPorts : Port := 10

/-- Go `PortState` is a `bool`. -/
abbrev PortState := Bool

/-- Go constant `PortOff PortState = false`. -/
def PortOff : PortState := false

/-- Go constant `PortOn PortState = true`. -/
def PortOn : PortState := true

/-- The Go code reports failures as `error` values built with
`errors.New` / `fmt.Errorf`; each distinct message is one constructor here,
carrying the data interpolated into the message. -/
inductive Err where
  /-- `errors.New("device not connected")` -/
  | notConnected : Err
  /-- `fmt.Errorf("invalid port: %d", port)` in `PortUp` / `PortDown` -/
  | invalidPort (p : Port) : Err
  /-- `fmt.Errorf("invalid port for state query: %d", port)` in `GetPortState` -/
  | invalidStatePort (p : Port) : Err
  /-- `fmt.Errorf("failed to send command: %w", err)` -/
  | sendFailed (msg : String) : Err
  /-- `fmt.Errorf("failed to read response: %w", err)` -/
  | readFailed (msg : String) : Err
  /-- `fmt.Errorf("unexpected response: status=0x%02x, response=0x%02x", resp[0], resp[1])` -/
  | unexpectedResponse (status resp : Nat) : Err
  /-- `fmt.Errorf("command failed: status=0x%02x", resp[0])` -/
  | commandFailed (status : Nat) : Err
  /-- `fmt.Errorf("unexpected state response: 0x%02x", resp[1])` -/
  | unexpectedState (b : Nat) : Err
  /-- error passed through unchanged from the HID library -/
  | hidFailed (msg : String) : Err
  /-- `fmt.Errorf("failed to get state for port %d: %w", port, err)` in `GetAllPortsState` -/
  | portStateFailed (p : Port) (e : Err) : Err
deriving DecidableEq, Repr

/-- A transport event: one `Write` of a report, or one `Read` into a buffer of
the given size.  Operations return the list of events they performed. -/
inductive Ev where
  | write (buf : List Nat) : Ev
  | read (size : Nat) : Ev
deriving DecidableEq, Repr

/-- Stub for the HID device underlying one exchange: the outcome of the
one `Write` call (bytes written, or an error) and of the one `Read` call
(the 64-byte buffer contents after the read together with the bytes-read
count, or an error). -/
structure Transport where
  writeRes : Except String Nat
  readRes : Except String (List Nat × Nat)
deriving Repr

/-- The `*hid.Device` held by an open handle, abstracted to the results of
the calls the driver makes on it. -/
structure Device where
  closeRes : Option String
  serialRes : Except String String
deriving Repr

/-- Go `type YKUSH3 struct { device *hid.Device; serial string }`; the nil
pointer becomes `none`. -/
structure YKUSH3 where
  device : Option Device
  serial : String
deriving Repr

/-- The report built by `sendCommand`:
`cmdBuf := make([]byte, ReportSize); cmdBuf[0] = cmd; cmdBuf[1] = ctrl`. -/
def buildReport (cmd ctrl : Nat) : List Nat :=
  cmd :: ctrl :: List.replicate (ReportSize - 2) 0

/-- Go `func (y *YKUSH3) Close() error`, returning the error together with the
updated handle (Go mutates `y.device = nil`). -/
def Close (y : YKUSH3) : Option String × YKUSH3 :=
  match y.device with
  | some d => (d.closeRes, { y with device := none })
  | none => (none, y)

/-- Go `func (y *YKUSH3) GetSerial() (string, error)`. -/
def GetSerial (y : YKUSH3) : Except Err String :=
  match y.device with
  | none => .error .notConnected
  | some d =>
    match d.serialRes with
    | .error e => .error (.hidFailed e)
    | .ok s => .ok s

/-- Go `func (y *YKUSH3) sendCommand(cmd, ctrl byte) ([]byte, error)`, together
with the trace of transport events performed. -/
def sendCommand (y : YKUSH3) (t : Transport) (cmd ctrl : Nat) :
    Except Err (List Nat) × List Ev :=
  match y.device with
  | none => (.error .notConnected, [])
  | some _ =>
    let cmdBuf := buildReport cmd ctrl
    match t.writeRes with
    | .error e => (.error (.sendFailed e), [.write cmdBuf])
    | .ok _ =>
      match t.readRes with
      | .error e => (.error (.readFailed e), [.write cmdBuf, .read ReportSize])
      | .ok (resp, _) => (.ok resp, [.write cmdBuf, .read ReportSize])

/-- The `switch port` table of `PortUp`. -/
def portUpCmd (port : Port) : Option Nat :=
  if port = Port1 then some 0x11
  else if port = Port2 then some 0x12
  else if port = Port3 then some 0x13
  else if port = AllPorts then some 0x1A
  else none

/-- The `switch port` table of `PortDown`. -/
def portDownCmd (port : Port) : Option Nat :=
  if port = Port1 then some 0x01
  else if port = Port2 then some 0x02
  else if port = Port3 then some 0x03
  else if port = AllPorts then some 0x0A
  else none

/-- The `switch port` table of `GetPortState` (no `AllPorts` case). -/
def portStateCmd (port : Port) : Option Nat :=
  if port = Port1 then some 0x21
  else if port = Port2 then some 0x22
  else if port = Port3 then some 0x23
  else none

/-- Go `func (y *YKUSH3) PortUp(port Port) error`, with its transport trace. -/
def PortUp (y : YKUSH3) (t : Transport) (port : Port) : Option Err × List Ev :=
  match portUpCmd port with
  | none => (some (.invalidPort port), [])
  | some cmd =>
    match sendCommand y t cmd cmd with
    | (.error e, tr) => (some e, tr)
    | (.ok resp, tr) =>
      if resp.getD 0 0 ≠ 0x01 ∨ resp.getD 1 0 ≠ cmd then
        (some (.unexpectedResponse (resp.getD 0 0) (resp.getD 1 0)), tr)
      else
        (none, tr)

/-- Go `func (y *YKUSH3) PortDown(port Port) error`, with its transport trace. -/
def PortDown (y : YKUSH3) (t : Transport) (port : Port) : Option Err × List Ev :=
  match portDownCmd port with
  | none => (some (.invalidPort port), [])
  | some cmd =>
    match sendCommand y t cmd cmd with
    | (.error e, tr) => (some e, tr)
    | (.ok resp, tr) =>
      if resp.getD 0 0 ≠ 0x01 ∨ resp.getD 1 0 ≠ cmd then
        (some (.unexpectedResponse (resp.getD 0 0) (resp.getD 1 0)), tr)
      else
        (none, tr)

/-- Go `func (y *YKUSH3) GetPortState(port Port) (PortState, error)`, with its
transport trace.  Go returns the pair (state, error); both are kept. -/
def GetPortState (y : YKUSH3) (t : Transport) (port : Port) :
    (PortState × Option Err) × List Ev :=
  match portStateCmd port with
  | none => ((PortOff, some (.invalidStatePort port)), [])
  | some cmd =>
    match sendCommand y t cmd cmd with
    | (.error e, tr) => ((PortOff, some e), tr)
    | (.ok resp, tr) =>
      if resp.getD 0 0 ≠ 0x01 then
        ((PortOff, some (.commandFailed (resp.getD 0 0))), tr)
      else if resp.getD 1 0 = 0x01 ∨ resp.getD 1 0 = 0x02 ∨ resp.getD 1 0 = 0x03 then
        ((PortOff, none), tr)
      else if resp.getD 1 0 = 0x11 ∨ resp.getD 1 0 = 0x12 ∨ resp.getD 1 0 = 0x13 then
        ((PortOn, none), tr)
      else
        ((PortOff, some (.unexpectedState (resp.getD 1 0))), tr)

/-- Go `func (y *YKUSH3) SetPortState(port Port, state PortState) error`. -/
def SetPortState (y : YKUSH3) (t : Transport) (port : Port) (state : PortState) :
    Option Err × List Ev :=
  if state then PortUp y t port else PortDown y t port

/-- Go `func (y *YKUSH3) AllPortsUp() error`. -/
def AllPortsUp (y : YKUSH3) (t : Transport) : Option Err × List Ev :=
  PortUp y t AllPorts

/-- Go `func (y *YKUSH3) AllPortsDown() error`. -/
def AllPortsDown (y : YKUSH3) (t : Transport) : Option Err × List Ev :=
  PortDown y t AllPorts

/-- The `for _, port := range ports` loop of `GetAllPortsState`.  Each
iteration calls `GetPortState`; the transport outcome of each call is given
by `ts` indexed by the port.  Returns the accumulated map (as the
association list built in insertion order) or the first error, together
with the list of ports actually queried. -/
def getAllLoop (y : YKUSH3) (ts : Port → Transport) :
    List Port → List (Port × PortState) →
    Except Err (List (Port × PortState)) × List Port
  | [], acc => (.ok acc, [])
  | p :: rest, acc =>
    match (GetPortState y (ts p) p).1.2 with
    | some e => (.error (.portStateFailed p e), [p])
    | none =>
      let r := getAllLoop y ts rest (acc ++ [(p, (GetPortState y (ts p) p).1.1)])
      (r.1, p :: r.2)

/-- Go `func (y *YKUSH3) GetAllPortsState() (map[Port]PortState, error)`; the
map is modelled as the association list in the fixed iteration order, `nil`
as the `.error` case.  Also returns the list of ports queried. -/
def GetAllPortsState (y : YKUSH3) (ts : Port → Transport) :
    Except Err (List (Port × PortState)) × List Port :=
  getAllLoop y ts [Port1, Port2, Port3] []

/-- Go `func (p Port) String() string`. -/
def portString (p : Port) : String :=
  if p = Port1 then "Port 1"
  else if p = Port2 then "Port 2"
  else if p = Port3 then "Port 3"
  else if p = AllPorts then "All Ports"
  else "Port " ++ toString p

/-- Go `func (s PortState) String() string`. -/
def portStateString (s : PortState) : String :=
  if s then "ON" else "OFF"

/-- A device stub whose `Close` and `GetSerialNbr` calls succeed. -/
def devOK : Device := { closeRes := none, serialRes := .ok "YK00001" }

/-- An open handle, as produced by a successful `NewWithSerial`. -/
def yOpen : YKUSH3 := { device := some devOK, serial := "" }

/-- A 64-byte response buffer with the given first two bytes. -/
def respBuf (b0 b1 : Nat) : List Nat :=
  b0 :: b1 :: List.replicate (ReportSize - 2) 0

/-- A transport whose write succeeds and whose read fills the buffer with
`respBuf b0 b1`. -/
def respT (b0 b1 : Nat) : Transport :=
  { writeRes := .ok ReportSize, readRes := .ok (respBuf b0 b1, ReportSize) }

/-- A transport answering every exchange with status `0x01`, state `0x11`. -/
def tOK : Transport := respT 0x01 0x11

/-- A transport family answering every port query with `tOK`. -/
def tsOK : Port → Transport := fun _ => tOK

/-- Applying `List.getD` to a replicated zero list is zero. -/
theorem getD_replicate_zero : ∀ (n i : Nat), (List.replicate n (0 : Nat)).getD i 0 = 0 := by
  intro n
  induction n with
  | zero => intro i; simp [List.getD]
  | succ k ih =>
    intro i
    cases i with
    | zero => simp [List.replicate]
    | succ j =>
      simp only [List.replicate, List.getD_cons_succ]
      exact ih j

/-- C1: the command encoder reproduces the fixed table: Raise maps
Port1/Port2/Port3/AllPorts to 0x11/0x12/0x13/0x1A, Lower maps them to
0x01/0x02/0x03/0x0A, and QueryState maps Port1/Port2/Port3 to
0x21/0x22/0x23 (and has no AllPorts entry). -/
theorem encoder_table :
    portUpCmd Port1 = some 0x11 ∧ portUpCmd Port2 = some 0x12 ∧
    portUpCmd Port3 = some 0x13 ∧ portUpCmd AllPorts = some 0x1A ∧
    portDownCmd Port1 = some 0x01 ∧ portDownCmd Port2 = some 0x02 ∧
    portDownCmd Port3 = some 0x03 ∧ portDownCmd AllPorts = some 0x0A ∧
    portStateCmd Port1 = some 0x21 ∧ portStateCmd Port2 = some 0x22 ∧
    portStateCmd Port3 = some 0x23 ∧ portStateCmd AllPorts = none := by
  decide


/-- C3 counterexample: on a `GetPortState` call on `Port1` with response
`byte0 = 0x01`, `byte1 = 0x21`, the code does not return `PortOff`
successfully — it fails with the unexpected-state error (`0x21` is not
among the six recognised state codes `0x01..0x03`, `0x11..0x13`). -/
theorem query_port1_0x21_fails :
    (GetPortState yOpen (respT 0x01 0x21) Port1).1
        = (PortOff, some (.unexpectedState 0x21)) ∧
    (GetPortState yOpen (respT 0x01 0x21) Port1).1.2 ≠ none := by
  decide

/-- C3 amended: a `Port1` query with `byte0 = 0x01` and an off-code
`byte1 = 0x01` returns `PortOff`; with `byte1 = 0x11` it returns `PortOn`;
with `byte1 = 0x21` it fails with the unexpected-state error. -/
theorem query_port1_concrete_decodes :
    (GetPortState yOpen (respT 0x01 0x01) Port1).1 = (PortOff, none) ∧
    (GetPortState yOpen (respT 0x01 0x11) Port1).1 = (PortOn, none) ∧
    (GetPortState yOpen (respT 0x01 0x21) Port1).1
        = (PortOff, some (.unexpectedState 0x21)) := by
  decide

/-- C2: for a `GetPortState` call on a valid port whose exchange succeeds,
a status byte other than `0x01` yields the command-failed error; with
status `0x01`, byte 1 in `{0x01, 0x02, 0x03}` yields `PortOff`, byte 1 in
`{0x11, 0x12, 0x13}` yields `PortOn`, and any other byte 1 yields the
unexpected-state error. -/
theorem query_state_decoding (y : YKUSH3) (d : Device) (t : Transport)
    (p : Port) (cmd : Nat) (resp : List Nat) (nw nr : Nat)
    (hd : y.device = some d) (hc : portStateCmd p = some cmd)
    (hw : t.writeRes = .ok nw) (hr : t.readRes = .ok (resp, nr)) :
    (resp.getD 0 0 ≠ 0x01 →
      (GetPortState y t p).1 = (PortOff, some (.commandFailed (resp.getD 0 0)))) ∧
    (resp.getD 0 0 = 0x01 →
      (resp.getD 1 0 = 0x01 ∨ resp.getD 1 0 = 0x02 ∨ resp.getD 1 0 = 0x03 →
        (GetPortState y t p).1 = (PortOff, none)) ∧
      (resp.getD 1 0 = 0x11 ∨ resp.getD 1 0 = 0x12 ∨ resp.getD 1 0 = 0x13 →
        (GetPortState y t p).1 = (PortOn, none)) ∧
      (¬(resp.getD 1 0 = 0x01 ∨ resp.getD 1 0 = 0x02 ∨ resp.getD 1 0 = 0x03) →
        ¬(resp.getD 1 0 = 0x11 ∨ resp.getD 1 0 = 0x12 ∨ resp.getD 1 0 = 0x13) →
        (GetPortState y t p).1 = (PortOff, some (.unexpectedState (resp.getD 1 0))))) := by
  refine ⟨?_, ?_⟩
  · intro h0
    simp only [GetPortState, hc, sendCommand, hd, hw, hr]
    rw [if_pos h0]
  · intro h0
    refine ⟨?_, ?_, ?_⟩
    · intro hb
      simp only [GetPortState, hc, sendCommand, hd, hw, hr]
      rw [if_neg (not_not_intro h0), if_pos hb]
    · intro hb
      simp only [GetPortState, hc, sendCommand, hd, hw, hr]
      rw [if_neg (not_not_intro h0),
        if_neg (by rcases hb with h | h | h <;> rw [h] <;> decide), if_pos hb]
    · intro hb1 hb2
      simp only [GetPortState, hc, sendCommand, hd, hw, hr]
      rw [if_neg (not_not_intro h0), if_neg hb1, if_neg hb2]

/-- Witness for C2 at a concrete input: an open handle, a successful
exchange answering status `0x01` and state byte `0x7F`, on `Port1`. -/
theorem query_state_decoding_witness :
    (GetPortState yOpen (respT 0x01 0x7F) Port1).1
      = (PortOff, some (.unexpectedState 0x7F)) := by
  have h := query_state_decoding yOpen devOK (respT 0x01 0x7F) Port1 0x21
      (respBuf 0x01 0x7F) ReportSize ReportSize rfl (by decide) rfl rfl
  exact (h.2 (by decide)).2.2 (by decide) (by decide)

/-- C4: a `PortUp` / `PortDown` call whose exchange succeeds returns no
error exactly when response byte 0 is `0x01` and byte 1 echoes the command
byte that was sent; on any mismatch it returns the unexpected-response
error carrying both observed bytes. -/
theorem actuation_ack (y : YKUSH3) (d : Device) (t : Transport)
    (p : Port) (cu cd : Nat) (resp : List Nat) (nw nr : Nat)
    (hd : y.device = some d) (hu : portUpCmd p = some cu)
    (hdn : portDownCmd p = some cd)
    (hw : t.writeRes = .ok nw) (hr : t.readRes = .ok (resp, nr)) :
    ((PortUp y t p).1 = none ↔ (resp.getD 0 0 = 0x01 ∧ resp.getD 1 0 = cu)) ∧
    (¬(resp.getD 0 0 = 0x01 ∧ resp.getD 1 0 = cu) →
      (PortUp y t p).1
        = some (.unexpectedResponse (resp.getD 0 0) (resp.getD 1 0))) ∧
    ((PortDown y t p).1 = none ↔ (resp.getD 0 0 = 0x01 ∧ resp.getD 1 0 = cd)) ∧
    (¬(resp.getD 0 0 = 0x01 ∧ resp.getD 1 0 = cd) →
      (PortDown y t p).1
        = some (.unexpectedResponse (resp.getD 0 0) (resp.getD 1 0))) := by
  refine ⟨?_, ?_, ?_, ?_⟩
  · simp only [PortUp, hu, sendCommand, hd, hw, hr]
    by_cases hab : resp.getD 0 0 = 0x01 ∧ resp.getD 1 0 = cu
    · rw [if_neg (by push_neg; exact hab)]
      exact iff_of_true rfl hab
    · rw [if_pos (by tauto)]
      exact iff_of_false (by simp) hab
  · intro hne
    simp only [PortUp, hu, sendCommand, hd, hw, hr]
    rw [if_pos (show resp.getD 0 0 ≠ 0x01 ∨ resp.getD 1 0 ≠ cu by tauto)]
  · simp only [PortDown, hdn, sendCommand, hd, hw, hr]
    by_cases hab : resp.getD 0 0 = 0x01 ∧ resp.getD 1 0 = cd
    · rw [if_neg (by push_neg; exact hab)]
      exact iff_of_true rfl hab
    · rw [if_pos (by tauto)]
      exact iff_of_false (by simp) hab
  · intro hne
    simp only [PortDown, hdn, sendCommand, hd, hw, hr]
    rw [if_pos (show resp.getD 0 0 ≠ 0x01 ∨ resp.getD 1 0 ≠ cd by tauto)]

/-- Witness for C4 at a concrete input: open handle, `Port1`, a response
whose byte 1 (`0x99`) does not echo the sent command byte `0x11`. -/
theorem actuation_ack_witness :
    (PortUp yOpen (respT 0x01 0x99) Port1).1
      = some (.unexpectedResponse 0x01 0x99) := by
  have h := actuation_ack yOpen devOK (respT 0x01 0x99) Port1 0x11 0x01
      (respBuf 0x01 0x99) ReportSize ReportSize rfl (by decide) (by decide) rfl rfl
  exact h.2.1 (by decide)

/-- Helper for C9: every branch of `GetPortState` returns either no error
or the state `PortOff`. -/
theorem getPortState_off_or_ok (y : YKUSH3) (t : Transport) (p : Port) :
    (GetPortState y t p).1.2 = none ∨ (GetPortState y t p).1.1 = PortOff := by
  rcases hpc : portStateCmd p with _ | cmd
  · simp [GetPortState, hpc]
  · rcases hsc : sendCommand y t cmd cmd with ⟨re, tr⟩
    rcases re with e | resp
    · simp [GetPortState, hpc, hsc]
    · simp only [GetPortState, hpc, hsc]
      split_ifs <;> simp [PortOff]

/-- C9: on every error path of `GetPortState` — invalid port, not
connected, transport failure, bad status byte, or unexpected state byte —
the `PortState` value returned alongside the error is `PortOff`. -/
theorem get_port_state_error_is_off (y : YKUSH3) (t : Transport) (p : Port)
    (h : (GetPortState y t p).1.2 ≠ none) :
    (GetPortState y t p).1.1 = PortOff := by
  rcases getPortState_off_or_ok y t p with h' | h'
  · exact absurd h' h
  · exact h'

/-- Witness for C9 at a concrete input: a closed handle on `Port1` fails
(not connected) and reports `PortOff`. -/
theorem get_port_state_error_is_off_witness :
    (GetPortState (YKUSH3.mk none "") tOK Port1).1.2 ≠ none ∧
    (GetPortState (YKUSH3.mk none "") tOK Port1).1.1 = PortOff :=
  ⟨by decide, get_port_state_error_is_off (YKUSH3.mk none "") tOK Port1 (by decide)⟩

/-- C5: `GetAllPortsState` queries exactly `Port1`, `Port2`, `Port3` in
that fixed order; if every query succeeds it returns a map with exactly
those three entries, and a failure at any port aborts with no map (and no
further queries), never a partial map. -/
theorem get_all_ports_state_cases (y : YKUSH3) (ts : Port → Transport) :
    (∃ s1 s2 s3, GetAllPortsState y ts
        = (.ok [(Port1, s1), (Port2, s2), (Port3, s3)], [Port1, Port2, Port3])) ∨
    (∃ e, GetAllPortsState y ts
        = (.error (.portStateFailed Port1 e), [Port1])) ∨
    (∃ e, GetAllPortsState y ts
        = (.error (.portStateFailed Port2 e), [Port1, Port2])) ∨
    (∃ e, GetAllPortsState y ts
        = (.error (.portStateFailed Port3 e), [Port1, Port2, Port3])) := by
  cases h1 : (GetPortState y (ts Port1) Port1).1.2 with
  | some e1 =>
    exact Or.inr (Or.inl ⟨e1, by simp [GetAllPortsState, getAllLoop, h1]⟩)
  | none =>
    cases h2 : (GetPortState y (ts Port2) Port2).1.2 with
    | some e2 =>
      exact Or.inr (Or.inr (Or.inl
        ⟨e2, by simp [GetAllPortsState, getAllLoop, h1, h2]⟩))
    | none =>
      cases h3 : (GetPortState y (ts Port3) Port3).1.2 with
      | some e3 =>
        exact Or.inr (Or.inr (Or.inr
          ⟨e3, by simp [GetAllPortsState, getAllLoop, h1, h2, h3]⟩))
      | none =>
        exact Or.inl ⟨(GetPortState y (ts Port1) Port1).1.1,
          (GetPortState y (ts Port2) Port2).1.1,
          (GetPortState y (ts Port3) Port3).1.1,
          by simp [GetAllPortsState, getAllLoop, h1, h2, h3]⟩

/-- C7: a port outside `{Port1, Port2, Port3, AllPorts}` passed to
`PortUp` or `PortDown`, and `AllPorts` or any other invalid port passed to
`GetPortState`, fail with the invalid-argument error with an empty
transport trace: no write or read is performed. -/
theorem invalid_port_rejected (y : YKUSH3) (t : Transport) (p q : Port)
    (hp : ¬(p = Port1 ∨ p = Port2 ∨ p = Port3 ∨ p = AllPorts))
    (hq : ¬(q = Port1 ∨ q = Port2 ∨ q = Port3)) :
    PortUp y t p = (some (.invalidPort p), []) ∧
    PortDown y t p = (some (.invalidPort p), []) ∧
    GetPortState y t q = ((PortOff, some (.invalidStatePort q)), []) := by
  push_neg at hp hq
  obtain ⟨hp1, hp2, hp3, hp4⟩ := hp
  obtain ⟨hq1, hq2, hq3⟩ := hq
  refine ⟨?_, ?_, ?_⟩
  · simp [PortUp, portUpCmd, hp1, hp2, hp3, hp4]
  · simp [PortDown, portDownCmd, hp1, hp2, hp3, hp4]
  · simp [GetPortState, portStateCmd, hq1, hq2, hq3]

/-- Witness for C7 at concrete inputs: port `7` for `PortUp`/`PortDown`
and the `AllPorts` sentinel for `GetPortState`, on an open handle with a
live transport. -/
theorem invalid_port_rejected_witness :
    GetPortState yOpen tOK AllPorts
      = ((PortOff, some (.invalidStatePort AllPorts)), []) :=
  (invalid_port_rejected yOpen tOK 7 AllPorts (by decide) (by decide)).2.2

/-- C10: the byte counts returned by the transport write and read are
discarded by `sendCommand`: the result is identical for any counts, and a
short-but-error-free write and read still yield the raw 64-byte buffer as
a successful exchange. -/
theorem send_command_ignores_counts (d : Device) (s : String)
    (cmd ctrl : Nat) (resp : List Nat) (n nn m mm : Nat) :
    sendCommand ⟨some d, s⟩ ⟨.ok n, .ok (resp, m)⟩ cmd ctrl
        = sendCommand ⟨some d, s⟩ ⟨.ok nn, .ok (resp, mm)⟩ cmd ctrl ∧
    sendCommand ⟨some d, s⟩ ⟨.ok n, .ok (resp, m)⟩ cmd ctrl
        = (.ok resp, [.write (buildReport cmd ctrl), .read ReportSize]) :=
  ⟨rfl, rfl⟩

/-- C6: `Close` leaves the handle with no device (so a second `Close` is a
no-op returning no error), and on a device-less handle every command or
query method — `PortUp`, `PortDown`, `GetPortState`, `GetSerial`,
`SetPortState`, `AllPortsUp`, `AllPortsDown`, `GetAllPortsState` — fails
with the not-connected error and performs no transport I/O (empty trace). -/
theorem close_idempotent_not_connected (y : YKUSH3) (s : String)
    (t : Transport) (ts : Port → Transport) (p : Port) (st : PortState)
    (hp : p = Port1 ∨ p = Port2 ∨ p = Port3) :
    (Close y).2 = YKUSH3.mk none y.serial ∧
    Close (YKUSH3.mk none s) = (none, YKUSH3.mk none s) ∧
    PortUp (YKUSH3.mk none s) t p = (some .notConnected, []) ∧
    PortDown (YKUSH3.mk none s) t p = (some .notConnected, []) ∧
    GetPortState (YKUSH3.mk none s) t p = ((PortOff, some .notConnected), []) ∧
    SetPortState (YKUSH3.mk none s) t p st = (some .notConnected, []) ∧
    AllPortsUp (YKUSH3.mk none s) t = (some .notConnected, []) ∧
    AllPortsDown (YKUSH3.mk none s) t = (some .notConnected, []) ∧
    GetSerial (YKUSH3.mk none s) = .error .notConnected ∧
    GetAllPortsState (YKUSH3.mk none s) ts
      = (.error (.portStateFailed Port1 .notConnected), [Port1]) := by
  refine ⟨?_, ?_⟩
  · rcases y with ⟨dev, ser⟩
    cases dev <;> rfl
  · rcases hp with rfl | rfl | rfl <;> cases st <;>
      exact ⟨rfl, rfl, rfl, rfl, rfl, rfl, rfl, rfl, rfl⟩

/-- Witness for C6 at a concrete input: closing the open fixture handle,
then operating on a closed handle with `Port1`. -/
theorem close_idempotent_not_connected_witness :
    PortUp (YKUSH3.mk none "") tOK Port1 = (some .notConnected, []) :=
  (close_idempotent_not_connected yOpen "" tOK tsOK Port1 false
      (Or.inl rfl)).2.2.1

/-- C8: every exchange on a connected handle builds a 64-byte report with
byte 0 the command byte, byte 1 the control byte and all other bytes zero;
it performs exactly one write of that report, then one read of a
same-size buffer, and returns the raw response buffer on success, the
wrapped transport error otherwise; every caller passes the command byte
itself as the control byte, so the two report bytes coincide. -/
theorem exchange_shape (d : Device) (s : String) (t : Transport)
    (cmd ctrl : Nat) :
    (buildReport cmd ctrl).length = ReportSize ∧
    (buildReport cmd ctrl).getD 0 0 = cmd ∧
    (buildReport cmd ctrl).getD 1 0 = ctrl ∧
    (∀ i, 2 ≤ i → (buildReport cmd ctrl).getD i 0 = 0) ∧
    (∀ e, t.writeRes = .error e →
      sendCommand ⟨some d, s⟩ t cmd ctrl
        = (.error (.sendFailed e), [.write (buildReport cmd ctrl)])) ∧
    (∀ n e, t.writeRes = .ok n → t.readRes = .error e →
      sendCommand ⟨some d, s⟩ t cmd ctrl
        = (.error (.readFailed e),
            [.write (buildReport cmd ctrl), .read ReportSize])) ∧
    (∀ n resp m, t.writeRes = .ok n → t.readRes = .ok (resp, m) →
      sendCommand ⟨some d, s⟩ t cmd ctrl
        = (.ok resp, [.write (buildReport cmd ctrl), .read ReportSize])) ∧
    (∀ p c, portUpCmd p = some c →
      (PortUp ⟨some d, s⟩ t p).2 = (sendCommand ⟨some d, s⟩ t c c).2) ∧
    (∀ p c, portDownCmd p = some c →
      (PortDown ⟨some d, s⟩ t p).2 = (sendCommand ⟨some d, s⟩ t c c).2) ∧
    (∀ p c, portStateCmd p = some c →
      (GetPortState ⟨some d, s⟩ t p).2 = (sendCommand ⟨some d, s⟩ t c c).2) := by
  refine ⟨?_, rfl, rfl, ?_, ?_, ?_, ?_, ?_, ?_, ?_⟩
  · simp [buildReport, ReportSize]
  · intro i hi
    match i, hi with
    | (j + 2), _ =>
      simp only [buildReport, List.getD_cons_succ]
      exact getD_replicate_zero _ j
  · intro e he
    simp [sendCommand, he]
  · intro n e hn he
    simp [sendCommand, hn, he]
  · intro n resp m hn hm
    simp [sendCommand, hn, hm]
  · intro p c hpc
    rcases hsc : sendCommand ⟨some d, s⟩ t c c with ⟨re, tr⟩
    rcases re with e | resp <;>
      simp only [PortUp, hpc, hsc] <;> split_ifs <;> rfl
  · intro p c hpc
    rcases hsc : sendCommand ⟨some d, s⟩ t c c with ⟨re, tr⟩
    rcases re with e | resp <;>
      simp only [PortDown, hpc, hsc] <;> split_ifs <;> rfl
  · intro p c hpc
    rcases hsc : sendCommand ⟨some d, s⟩ t c c with ⟨re, tr⟩
    rcases re with e | resp <;>
      simp only [GetPortState, hpc, hsc] <;> split_ifs <;> rfl

/-- Witness for C8 at a concrete input: the fixture transport and the
`Raise(Port1)` command byte `0x11`. -/
theorem exchange_shape_witness :
    sendCommand ⟨some devOK, ""⟩ tOK 0x11 0x11
      = (.ok (respBuf 0x01 0x11),
          [.write (buildReport 0x11 0x11), .read ReportSize]) :=
  (exchange_shape devOK "" tOK 0x11 0x11).2.2.2.2.2.2.1
    ReportSize (respBuf 0x01 0x11) ReportSize rfl rfl
